import Mathlib

/-!
# Motion-Activated LED Strip — shallow embedding and verification

A shallow embedding of `src/led_strip_final.ino`: the global state of the
sketch becomes a `State` record, each function (`checkLight`, `debounceMotion`,
`checkMotion`, `runWatchdog`) becomes a Lean function on `State`, and `loop()`
becomes a step function threaded over per-tick inputs (the millisecond clock
values observed during the tick, the analog LDR reading, and the three PIR
samples taken by the debouncer).

Modelling conventions:
* Arduino `unsigned long` millisecond timestamps are modelled as `Nat`.
  `a - b` on `unsigned long` agrees with truncated `Nat` subtraction whenever
  `b ≤ a`, which holds at every subtraction site reachable with a monotonic
  clock (inside `checkMotion` the code itself first forces
  `motionStartTime ≤ currentMillis`).
* Arduino `int` LDR quantities are modelled as `Int`; C integer division
  truncates toward zero, which is `Int.tdiv`.
* The physical LED output pin is one extra Boolean field `ledPin`
  (`digitalWrite` sets it, `digitalRead` reads it).
* Serial/debug output and `lastSerialTime` are pure diagnostics with no
  effect on control state and are not modelled.
-/

namespace LedStrip

/-- `TIMEOUT`: 5 seconds timeout for the motion cycle. -/
def TIMEOUT : Nat := 5000

/-- `CHECK_TIME`: extension checkpoint at 4 seconds into the motion cycle. -/
def CHECK_TIME : Nat := 4000

/-- `DEBOUNCE_READS`: number of PIR readings for the majority-vote debounce. -/
def DEBOUNCE_READS : Nat := 3

/-- `numReadings`: LDR moving-average window size. -/
def numReadings : Nat := 3

/-- `hysteresis`: dead-band half-width around the LDR threshold. -/
def hysteresis : Int := 20

/-- `LDR_FAST_INTERVAL`: light-check cadence while dark or changing (1 s). -/
def LDR_FAST_INTERVAL : Nat := 1000

/-- `LDR_SLOW_INTERVAL`: light-check cadence while consistently bright (10 s). -/
def LDR_SLOW_INTERVAL : Nat := 10000

/-- `LIGHT_HISTORY_THRESHOLD`: consecutive light readings that trigger slow mode. -/
def LIGHT_HISTORY_THRESHOLD : Nat := 5

/-- `LDR_LOCKOUT_PERIOD`: lockout after the LEDs turn on (the raw constant `6`
as it appears in the source). -/
def LDR_LOCKOUT_PERIOD : Nat := 6

/-- `WATCHDOG_INTERVAL`: the literal `30000` in `runWatchdog`. -/
def WATCHDOG_INTERVAL : Nat := 30000

/-- The sketch's global state: PIR state, LDR state, adaptive-interval state,
the combined `ledsEnabled` decision, and the physical output-pin level. -/
structure State where
  consecutiveLightReadings : Nat
  currentLdrInterval : Nat
  motionDetected : Bool
  motionStartTime : Nat
  lastWatchdogCheck : Nat
  ldrReadings : Fin 3 → Int
  readIndex : Fin 3
  ldrTotal : Int
  ldrAverage : Int
  ldrThreshold : Int
  isDark : Bool
  lastLdrCheck : Nat
  ledsEnabled : Bool
  ledOnTime : Nat
  ledPin : Bool

/-- `debounceMotion()`: take `DEBOUNCE_READS` digital PIR samples and
majority-vote them (`motionCount > DEBOUNCE_READS / 2`). -/
def debounceMotion (pir : Fin 3 → Bool) : Bool :=
  decide (DEBOUNCE_READS / 2 < (List.ofFn pir).count true)

/-- `checkLight()`: evict the oldest buffered sample from the running sum,
insert the fresh analog `reading` at the ring cursor, advance the cursor
modulo `numReadings`, recompute the truncating average, and apply the
two-threshold hysteresis update to `isDark`. -/
def checkLight (s : State) (reading : Int) : State :=
  let total := s.ldrTotal - s.ldrReadings s.readIndex
  let readings := Function.update s.ldrReadings s.readIndex reading
  let total2 := total + reading
  let idx : Fin 3 := ⟨(s.readIndex.val + 1) % numReadings, by
    show (s.readIndex.val + 1) % 3 < 3
    omega⟩
  let avg := Int.tdiv total2 (numReadings : Int)
  let dark :=
    if s.isDark = false ∧ avg ≤ s.ldrThreshold - hysteresis then true
    else if s.isDark = true ∧ s.ldrThreshold + hysteresis ≤ avg then false
    else s.isDark
  { s with ldrReadings := readings, ldrTotal := total2, readIndex := idx,
           ldrAverage := avg, isDark := dark }

/-- `checkMotion()`: clock-rollover guard, conditional debounced read, then
the `Idle → Active` / extension / timeout transitions. `now` is the value of
`millis()` captured at the top of the call; `pir` supplies the three digital
samples consumed by `debounceMotion` if and only if the code reaches it. -/
def checkMotion (s : State) (now : Nat) (pir : Fin 3 → Bool) : State :=
  let start0 := if now < s.motionStartTime then now else s.motionStartTime
  let s1 := { s with motionStartTime := start0 }
  let motionNow :=
    if s1.motionDetected = false ∨
       (s1.motionDetected = true ∧ CHECK_TIME ≤ now - start0 ∧
        now - start0 < TIMEOUT) then
      debounceMotion pir
    else
      false
  if s1.motionDetected = false ∧ motionNow = true then
    { s1 with motionDetected := true, motionStartTime := now }
  else if s1.motionDetected = true then
    if CHECK_TIME ≤ now - start0 ∧ now - start0 < TIMEOUT ∧ motionNow = true then
      { s1 with motionStartTime := now }
    else if TIMEOUT ≤ now - start0 then
      { s1 with motionDetected := false }
    else
      s1
  else
    s1

/-- `runWatchdog()`: every `WATCHDOG_INTERVAL` ms, compare `ledsEnabled`
against the physical pin and re-apply the intended level on mismatch. The
second component reports whether a corrective `digitalWrite` was issued. -/
def runWatchdogW (s : State) (now : Nat) : State × Bool :=
  if WATCHDOG_INTERVAL < now - s.lastWatchdogCheck then
    let s1 := { s with lastWatchdogCheck := now }
    if s1.ledsEnabled ≠ s1.ledPin then
      ({ s1 with ledPin := s1.ledsEnabled }, true)
    else
      (s1, false)
  else
    (s, false)

/-- The lockout predicate of `loop()`:
`ledsEnabled && (currentMillis - ledOnTime < LDR_LOCKOUT_PERIOD)`. -/
def inLockoutPeriod (s : State) (now : Nat) : Bool :=
  s.ledsEnabled && decide (now - s.ledOnTime < LDR_LOCKOUT_PERIOD)

/-- The guard under which `loop()` performs a light-classification step:
not in the lockout period, and the adaptive cadence has elapsed. -/
def lightCheckRuns (s : State) (now : Nat) : Bool :=
  !inLockoutPeriod s now && decide (s.currentLdrInterval ≤ now - s.lastLdrCheck)

/-- The light-classification block of `loop()`: when `lightCheckRuns`, stamp
`lastLdrCheck`, run `checkLight`, then apply the adaptive-interval logic and
the bright-forces-off rule. -/
def lightBlock (s : State) (now : Nat) (reading : Int) : State :=
  if lightCheckRuns s now then
    let s1 := checkLight { s with lastLdrCheck := now } reading
    if s1.isDark = false then
      let s2 := { s1 with consecutiveLightReadings := s1.consecutiveLightReadings + 1 }
      let s3 :=
        if LIGHT_HISTORY_THRESHOLD ≤ s2.consecutiveLightReadings ∧
           s2.currentLdrInterval = LDR_FAST_INTERVAL then
          { s2 with currentLdrInterval := LDR_SLOW_INTERVAL }
        else
          s2
      if s3.ledsEnabled = true then
        { s3 with ledsEnabled := false, ledPin := false }
      else
        s3
    else
      let s2 := { s1 with consecutiveLightReadings := 0 }
      if s2.currentLdrInterval = LDR_SLOW_INTERVAL then
        { s2 with currentLdrInterval := LDR_FAST_INTERVAL }
      else
        s2
  else
    s

/-- The darkness-gated motion/actuator block of `loop()`: only while `isDark`,
run `checkMotion` (with its own, possibly later, clock value `nowM`) and apply
`motionDetected` to the LEDs on change, stamping `ledOnTime` with the loop's
`currentMillis` (`now`) on an off-to-on transition. The second component
reports whether this block issued a `digitalWrite`. -/
def motionBlock (s : State) (now nowM : Nat) (pir : Fin 3 → Bool) : State × Bool :=
  if s.isDark = true then
    let s1 := checkMotion s nowM pir
    let newLedState := s1.motionDetected
    if s1.ledsEnabled ≠ newLedState then
      ({ s1 with ledsEnabled := newLedState, ledPin := newLedState,
                 ledOnTime := if newLedState = true then now else s1.ledOnTime },
       true)
    else
      (s1, false)
  else
    (s, false)

/-- The per-tick inputs of one `loop()` iteration: `now` is `millis()` at the
top of the loop, `nowM` the value read inside `checkMotion`, `nowW` the value
read inside `runWatchdog`, `reading` the analog LDR sample, and `pir` the
three digital PIR samples. -/
structure Tick where
  now : Nat
  nowM : Nat
  nowW : Nat
  reading : Int
  pir : Fin 3 → Bool

/-- One full `loop()` iteration: light block, then darkness-gated motion and
actuator block, then watchdog. The Boolean reports whether the actuator block
issued a `digitalWrite` this tick. -/
def loopStep (s : State) (t : Tick) : State × Bool :=
  let s1 := lightBlock s t.now t.reading
  let p := motionBlock s1 t.now t.nowM t.pir
  ((runWatchdogW p.1 t.nowW).1, p.2)

/-- The state after the buffer-initialization loop of `setup()`: the ring
buffer holds the three startup analog readings `r0 r1 r2`, `ldrTotal` their
sum, and every other global its C initializer. -/
def initState (r0 r1 r2 : Int) : State :=
  { consecutiveLightReadings := 0
    currentLdrInterval := LDR_FAST_INTERVAL
    motionDetected := false
    motionStartTime := 0
    lastWatchdogCheck := 0
    ldrReadings := fun i => if i = 0 then r0 else if i = 1 then r1 else r2
    readIndex := 0
    ldrTotal := r0 + r1 + r2
    ldrAverage := 0
    ldrThreshold := 0
    isDark := false
    lastLdrCheck := 0
    ledsEnabled := false
    ledOnTime := 0
    ledPin := false }

/-- The state at the end of `setup()`: buffer initialization, then
`calibrateLDR()` (which fixes `ldrThreshold := 30` and runs one initial
`checkLight` pass consuming a fourth analog reading `r3`). -/
def setup (r0 r1 r2 r3 : Int) : State :=
  checkLight { initState r0 r1 r2 with ldrThreshold := 30 } r3

/-! ## Basic facts about `checkLight` -/

/-- The `isDark` output of `checkLight` is exactly the two-threshold update
applied to the freshly computed average. -/
lemma checkLight_isDark (s : State) (r : Int) :
    (checkLight s r).isDark =
      if s.isDark = false ∧ (checkLight s r).ldrAverage ≤ s.ldrThreshold - hysteresis then true
      else if s.isDark = true ∧ s.ldrThreshold + hysteresis ≤ (checkLight s r).ldrAverage then false
      else s.isDark := rfl

/-- C1. Hysteresis of the light classifier: for every classifier state and
every fresh reading, writing `a` for the computed average and `thr` for the
threshold, (i) if `isDark` was true and `a` lies in the open dead band
`(thr - hysteresis, thr + hysteresis)` then `isDark` stays true; (ii) from
dark, `isDark` flips to false only when `a ≥ thr + hysteresis`; (iii) from
light, `isDark` flips to true only when `a ≤ thr - hysteresis`; (iv) at the
bare threshold `a = thr` no transition occurs in either direction. -/
theorem checkLight_hysteresis (s : State) (r : Int) :
    (s.isDark = true → s.ldrThreshold - hysteresis < (checkLight s r).ldrAverage →
      (checkLight s r).ldrAverage < s.ldrThreshold + hysteresis →
      (checkLight s r).isDark = true) ∧
    (s.isDark = true → (checkLight s r).isDark = false →
      s.ldrThreshold + hysteresis ≤ (checkLight s r).ldrAverage) ∧
    (s.isDark = false → (checkLight s r).isDark = true →
      (checkLight s r).ldrAverage ≤ s.ldrThreshold - hysteresis) ∧
    ((checkLight s r).ldrAverage = s.ldrThreshold →
      (checkLight s r).isDark = s.isDark) := by
  have hh : hysteresis = 20 := rfl
  rw [checkLight_isDark]
  split_ifs with h1 h2
  · obtain ⟨h1a, h1b⟩ := h1
    refine ⟨fun hd _ _ => rfl, fun hd _ => absurd (hd ▸ h1a) (by simp), ?_, ?_⟩
    · intro _ _; exact h1b
    · intro ha; omega
  · obtain ⟨h2a, h2b⟩ := h2
    refine ⟨?_, fun _ _ => h2b, ?_, ?_⟩
    · intro _ _ hlt; omega
    · intro hd _; rw [hd] at h2a; exact absurd h2a (by simp)
    · intro ha; omega
  · refine ⟨fun hd _ _ => hd, ?_, ?_, fun _ => rfl⟩
    · intro hd hf; rw [hd] at hf; exact absurd hf (by simp)
    · intro hd ht; exact absurd (hd ▸ ht) (by simp)

/-- Witness for C1: the post-`setup` state on all-zero readings is dark
(average 0, threshold 30), and a fresh reading of 100 puts the average at 33,
inside the open dead band `(10, 50)`, so the classifier stays dark. -/
theorem checkLight_hysteresis_witness :
    (setup 0 0 0 0).isDark = true ∧
    (checkLight (setup 0 0 0 0) 100).ldrAverage = 33 ∧
    (checkLight (setup 0 0 0 0) 100).isDark = true := by
  refine ⟨by decide, by decide, ?_⟩
  exact (checkLight_hysteresis (setup 0 0 0 0) 100).1 (by decide) (by decide) (by decide)

/-! ## Ring-buffer correctness (C2) -/

/-- Successor of a ring cursor, modulo the buffer size. -/
def next3 (i : Fin 3) : Fin 3 := ⟨(i.val + 1) % 3, by omega⟩

lemma next3_ne (i : Fin 3) : next3 i ≠ i := by fin_cases i <;> decide

lemma next3_next3_ne (i : Fin 3) : next3 (next3 i) ≠ i := by fin_cases i <;> decide

lemma next3_next3_next3 (i : Fin 3) : next3 (next3 (next3 i)) = i := by
  fin_cases i <;> decide

/-- The ring buffer of `s` holds, in eviction order starting at the cursor,
the three values `a`, `b`, `c` (`a` oldest, `c` newest), and the running sum
is their sum. -/
def RingCoherent (s : State) (a b c : Int) : Prop :=
  s.ldrReadings s.readIndex = a ∧
  s.ldrReadings (next3 s.readIndex) = b ∧
  s.ldrReadings (next3 (next3 s.readIndex)) = c ∧
  s.ldrTotal = a + b + c

lemma checkLight_readIndex (s : State) (r : Int) :
    (checkLight s r).readIndex = next3 s.readIndex := rfl

lemma checkLight_ldrReadings (s : State) (r : Int) :
    (checkLight s r).ldrReadings = Function.update s.ldrReadings s.readIndex r := rfl

lemma checkLight_ldrTotal (s : State) (r : Int) :
    (checkLight s r).ldrTotal = s.ldrTotal - s.ldrReadings s.readIndex + r := rfl

lemma checkLight_ldrAverage (s : State) (r : Int) :
    (checkLight s r).ldrAverage =
      Int.tdiv (s.ldrTotal - s.ldrReadings s.readIndex + r) (numReadings : Int) := rfl

/-- One `checkLight` insertion rotates the coherent ring: the oldest value is
evicted, the fresh reading becomes the newest, and the average is the
truncating mean of the three retained values. -/
lemma checkLight_ring (s : State) (a b c r : Int) (h : RingCoherent s a b c) :
    RingCoherent (checkLight s r) b c r ∧
    (checkLight s r).ldrAverage = Int.tdiv (b + c + r) (numReadings : Int) := by
  obtain ⟨h1, h2, h3, h4⟩ := h
  have havg : (checkLight s r).ldrAverage = Int.tdiv (b + c + r) (numReadings : Int) := by
    rw [checkLight_ldrAverage, h1, h4]
    ring_nf
  refine ⟨⟨?_, ?_, ?_, ?_⟩, havg⟩
  · rw [checkLight_ldrReadings, checkLight_readIndex,
        Function.update_noteq (next3_ne s.readIndex), h2]
  · rw [checkLight_ldrReadings, checkLight_readIndex,
        Function.update_noteq (next3_next3_ne s.readIndex), h3]
  · rw [checkLight_ldrReadings, checkLight_readIndex, next3_next3_next3,
        Function.update_same]
  · rw [checkLight_ldrTotal, h1, h4]; ring

/-- A sequence of analog readings fed, in order, through `checkLight`. -/
def applyReadings (s : State) (rs : List Int) : State :=
  rs.foldl checkLight s

/-- The last `n` elements of a list. -/
def lastN (n : Nat) (l : List Int) : List Int := l.drop (l.length - n)

lemma lastN_cons3 (a : Int) (l : List Int) (h : 3 ≤ l.length) :
    lastN 3 (a :: l) = lastN 3 l := by
  unfold lastN
  have h2 : (a :: l).length - 3 = (l.length - 3) + 1 := by
    simp only [List.length_cons]; omega
  rw [h2, List.drop_succ_cons]

lemma lastN_three (a b c : Int) : lastN 3 [a, b, c] = [a, b, c] := rfl

/-- Feeding `rs` through a ring-coherent state ends with `ldrAverage` equal to
the truncating mean of the last three of `a :: b :: c :: rs`. -/
lemma applyReadings_avg (rs : List Int) : ∀ (s : State) (a b c : Int),
    RingCoherent s a b c →
    (applyReadings s rs).ldrAverage =
      if rs = [] then s.ldrAverage
      else Int.tdiv ((lastN 3 (a :: b :: c :: rs)).sum) (numReadings : Int) := by
  induction rs with
  | nil =>
      intro s a b c _
      simp [applyReadings]
  | cons x xs ih =>
      intro s a b c h
      obtain ⟨hrc, havg⟩ := checkLight_ring s a b c x h
      have hstep : applyReadings s (x :: xs) = applyReadings (checkLight s x) xs := rfl
      rw [hstep, ih (checkLight s x) b c x hrc]
      have hpeel : lastN 3 (a :: b :: c :: x :: xs) = lastN 3 (b :: c :: x :: xs) :=
        lastN_cons3 a _ (by simp only [List.length_cons]; omega)
      rcases Decidable.em (xs = []) with he | he
      · subst he
        simp only [if_pos rfl, if_neg (by simp : ¬([x] = ([] : List Int)))]
        rw [havg, hpeel, lastN_three]
        simp only [List.sum_cons, List.sum_nil, add_zero]
        rw [add_assoc]
        simp
      · rw [if_neg he, if_neg (by simp : ¬(x :: xs = ([] : List Int))), hpeel]

/-- The state after `setup`'s buffer-initialization loop (threshold already
calibrated) is ring-coherent on the three startup readings. -/
lemma initState_coherent (r0 r1 r2 : Int) :
    RingCoherent { initState r0 r1 r2 with ldrThreshold := 30 } r0 r1 r2 :=
  ⟨rfl, rfl, rfl, rfl⟩

/-- C2. Ring-buffer moving average: for every startup buffer fill
`r0 r1 r2`, calibration reading `r3`, and subsequent reading sequence `rs`
fed through `checkLight`, the final `ldrAverage` is the truncating integer
mean of the last `min (numInsertions) 3` readings of the whole analog-reading
sequence — the buffer always holds exactly the three most recent readings.
Instantiating `rs` at every prefix gives the value after each insertion. -/
theorem ldrAverage_ring_buffer_mean (r0 r1 r2 r3 : Int) (rs : List Int) :
    (applyReadings (setup r0 r1 r2 r3) rs).ldrAverage =
      Int.tdiv ((lastN (min (4 + rs.length) numReadings)
                  (r0 :: r1 :: r2 :: r3 :: rs)).sum) (numReadings : Int) := by
  have hmin : min (4 + rs.length) numReadings = 3 := by
    have : numReadings = 3 := rfl
    omega
  rw [hmin]
  obtain ⟨hrc, havg⟩ :=
    checkLight_ring { initState r0 r1 r2 with ldrThreshold := 30 } r0 r1 r2 r3
      (initState_coherent r0 r1 r2)
  have hsetup : setup r0 r1 r2 r3 =
      checkLight { initState r0 r1 r2 with ldrThreshold := 30 } r3 := rfl
  have hpeel : lastN 3 (r0 :: r1 :: r2 :: r3 :: rs) = lastN 3 (r1 :: r2 :: r3 :: rs) :=
    lastN_cons3 r0 _ (by simp only [List.length_cons]; omega)
  rw [hsetup, applyReadings_avg rs _ r1 r2 r3 hrc, hpeel]
  rcases Decidable.em (rs = []) with he | he
  · subst he
    rw [if_pos rfl, havg, lastN_three]
    simp only [List.sum_cons, List.sum_nil, add_zero]
    rw [add_assoc]
  · rw [if_neg he]

/-! ## Motion-cycle timing (C4) and rollover guard (C5) -/

/-- C4. Motion-cycle timeout boundary: starting from a state whose motion
cycle began at `t = 0` (`motionDetected` true, `motionStartTime = 0`), if the
debounced signal yields no extension inside the checkpoint window
`[CHECK_TIME, TIMEOUT)`, then a `checkMotion` call at elapsed time `e` leaves
`motionDetected` true for every `e < TIMEOUT` (in particular `e = 4999`) and
sets it false for every `e ≥ TIMEOUT` (in particular `e = 5000`). -/
theorem checkMotion_timeout_boundary (s : State) (e : Nat) (pir : Fin 3 → Bool)
    (hmd : s.motionDetected = true) (hst : s.motionStartTime = 0)
    (hext : CHECK_TIME ≤ e → e < TIMEOUT → debounceMotion pir = false) :
    (e < TIMEOUT → (checkMotion s e pir).motionDetected = true) ∧
    (TIMEOUT ≤ e → (checkMotion s e pir).motionDetected = false) := by
  have hTC : CHECK_TIME = 4000 := rfl
  have hTO : TIMEOUT = 5000 := rfl
  unfold checkMotion
  rw [hmd, hst]
  simp only [Nat.not_lt_zero, if_false, Nat.sub_zero, Bool.true_eq_false,
    false_and, and_false, false_or, true_and, if_true]
  split_ifs with h1 h2 h3 h4 h5 <;>
    first
      | (exact ⟨fun _ => rfl, fun hge => by omega⟩)
      | (exact ⟨fun hlt => by omega, fun _ => rfl⟩)
      | (exact ⟨fun _ => hmd ▸ rfl, fun hge => by omega⟩)
      | (refine ⟨fun hlt => ?_, fun hge => ?_⟩ <;>
          (first | rfl | omega | (exact absurd (hext (by omega) (by omega)) (by simp_all))))

/-- Witness for C4: from a cycle started at `t = 0` with an all-low PIR line,
the state is still Active at 4999 ms and Idle at 5000 ms sharp. -/
theorem checkMotion_timeout_boundary_witness :
    (checkMotion { setup 0 0 0 0 with motionDetected := true, motionStartTime := 0 }
        4999 (fun _ => false)).motionDetected = true ∧
    (checkMotion { setup 0 0 0 0 with motionDetected := true, motionStartTime := 0 }
        5000 (fun _ => false)).motionDetected = false := by
  constructor
  · exact (checkMotion_timeout_boundary _ 4999 _ rfl rfl (fun _ _ => by decide)).1
      (by decide)
  · exact (checkMotion_timeout_boundary _ 5000 _ rfl rfl (fun _ _ => by decide)).2
      (by decide)

/-- C5. Clock-rollover guard: whenever the current timestamp is strictly
below the stored `motionStartTime`, `checkMotion` resets `motionStartTime`
to the current timestamp, and that call never drops `motionDetected` from
true to false — the rollover reset is not treated as a timeout. -/
theorem checkMotion_rollover_guard (s : State) (now : Nat) (pir : Fin 3 → Bool)
    (h : now < s.motionStartTime) :
    (checkMotion s now pir).motionStartTime = now ∧
    (s.motionDetected = true → (checkMotion s now pir).motionDetected = true) := by
  unfold checkMotion
  rw [if_pos h]
  have hTC : CHECK_TIME = 4000 := rfl
  have hTO : TIMEOUT = 5000 := rfl
  simp only [Nat.sub_self]
  split_ifs <;> simp_all <;> omega

/-- Witness for C5: a wrapped clock (`now = 3 < motionStartTime = 5`) during
an active cycle resets the cycle start to 3 and keeps the cycle active. -/
theorem checkMotion_rollover_guard_witness :
    3 < ({ setup 0 0 0 0 with motionDetected := true, motionStartTime := 5 } : State).motionStartTime ∧
    (checkMotion { setup 0 0 0 0 with motionDetected := true, motionStartTime := 5 }
        3 (fun _ => true)).motionStartTime = 3 ∧
    (checkMotion { setup 0 0 0 0 with motionDetected := true, motionStartTime := 5 }
        3 (fun _ => true)).motionDetected = true := by
  refine ⟨by decide, ?_, ?_⟩
  · exact (checkMotion_rollover_guard _ 3 _ (by decide)).1
  · exact (checkMotion_rollover_guard _ 3 _ (by decide)).2 rfl

/-! ## Watchdog (C8), actuator write elision (C9), lockout gating (C10) -/

lemma runWatchdogW_noFire (s : State) (now : Nat)
    (h : ¬ WATCHDOG_INTERVAL < now - s.lastWatchdogCheck) :
    runWatchdogW s now = (s, false) := by
  unfold runWatchdogW
  rw [if_neg h]

lemma runWatchdogW_snd_noFire (s : State) (now : Nat)
    (h : ¬ WATCHDOG_INTERVAL < now - s.lastWatchdogCheck) :
    (runWatchdogW s now).2 = false := by
  rw [runWatchdogW_noFire s now h]

lemma runWatchdogW_fire_mismatch (s : State) (now : Nat)
    (hf : WATCHDOG_INTERVAL < now - s.lastWatchdogCheck)
    (hm : s.ledsEnabled ≠ s.ledPin) :
    runWatchdogW s now =
      ({ s with lastWatchdogCheck := now, ledPin := s.ledsEnabled }, true) := by
  unfold runWatchdogW
  rw [if_pos hf]
  dsimp only
  rw [if_pos hm]

lemma runWatchdogW_fire_match (s : State) (now : Nat)
    (hf : WATCHDOG_INTERVAL < now - s.lastWatchdogCheck)
    (hm : ¬ s.ledsEnabled ≠ s.ledPin) :
    runWatchdogW s now = ({ s with lastWatchdogCheck := now }, false) := by
  unfold runWatchdogW
  rw [if_pos hf]
  dsimp only
  rw [if_neg hm]

/-- C8. The watchdog is purely corrective: every invocation leaves
`ledsEnabled` and every other controller field except its own
`lastWatchdogCheck` stamp (and the physical pin) unchanged; it writes the pin
only when the pin level differs from `ledsEnabled`, the write makes the pin
equal `ledsEnabled`, and after a corrective write no further write occurs at
any invocation within the following `WATCHDOG_INTERVAL = 30000` ms. -/
theorem runWatchdog_purely_corrective (s : State) (now : Nat) :
    ((runWatchdogW s now).1.consecutiveLightReadings = s.consecutiveLightReadings ∧
     (runWatchdogW s now).1.currentLdrInterval = s.currentLdrInterval ∧
     (runWatchdogW s now).1.motionDetected = s.motionDetected ∧
     (runWatchdogW s now).1.motionStartTime = s.motionStartTime ∧
     (runWatchdogW s now).1.ldrReadings = s.ldrReadings ∧
     (runWatchdogW s now).1.readIndex = s.readIndex ∧
     (runWatchdogW s now).1.ldrTotal = s.ldrTotal ∧
     (runWatchdogW s now).1.ldrAverage = s.ldrAverage ∧
     (runWatchdogW s now).1.ldrThreshold = s.ldrThreshold ∧
     (runWatchdogW s now).1.isDark = s.isDark ∧
     (runWatchdogW s now).1.lastLdrCheck = s.lastLdrCheck ∧
     (runWatchdogW s now).1.ledsEnabled = s.ledsEnabled ∧
     (runWatchdogW s now).1.ledOnTime = s.ledOnTime) ∧
    ((runWatchdogW s now).2 = true →
      s.ledPin ≠ s.ledsEnabled ∧ (runWatchdogW s now).1.ledPin = s.ledsEnabled) ∧
    ((runWatchdogW s now).2 = false → (runWatchdogW s now).1.ledPin = s.ledPin) ∧
    ((runWatchdogW s now).2 = true → ∀ t2, now ≤ t2 → t2 ≤ now + WATCHDOG_INTERVAL →
      (runWatchdogW (runWatchdogW s now).1 t2).2 = false) := by
  rcases Decidable.em (WATCHDOG_INTERVAL < now - s.lastWatchdogCheck) with hf | hf
  · rcases Decidable.em (s.ledsEnabled ≠ s.ledPin) with hm | hm
    · rw [runWatchdogW_fire_mismatch s now hf hm]
      refine ⟨⟨rfl, rfl, rfl, rfl, rfl, rfl, rfl, rfl, rfl, rfl, rfl, rfl, rfl⟩,
        fun _ => ⟨Ne.symm hm, rfl⟩, fun ht => by simp at ht,
        fun _ t2 hge hle => ?_⟩
      apply runWatchdogW_snd_noFire
      show ¬ (30000 < t2 - now)
      have hle2 : t2 ≤ now + 30000 := hle
      omega
    · rw [runWatchdogW_fire_match s now hf hm]
      exact ⟨⟨rfl, rfl, rfl, rfl, rfl, rfl, rfl, rfl, rfl, rfl, rfl, rfl, rfl⟩,
        fun ht => by simp at ht, fun _ => rfl, fun ht => by simp at ht⟩
  · rw [runWatchdogW_noFire s now hf]
    exact ⟨⟨rfl, rfl, rfl, rfl, rfl, rfl, rfl, rfl, rfl, rfl, rfl, rfl, rfl⟩,
      fun ht => by simp at ht, fun _ => rfl, fun ht => by simp at ht⟩

/-- Witness for C8: with tracked state and pin forced out of sync and
31000 ms elapsed, the watchdog performs exactly one corrective write, and a
further invocation 30000 ms later performs none. -/
theorem runWatchdog_purely_corrective_witness :
    (runWatchdogW { setup 0 0 0 0 with ledPin := true } 31000).2 = true ∧
    ({ setup 0 0 0 0 with ledPin := true } : State).ledPin ≠
      ({ setup 0 0 0 0 with ledPin := true } : State).ledsEnabled ∧
    (runWatchdogW { setup 0 0 0 0 with ledPin := true } 31000).1.ledPin =
      ({ setup 0 0 0 0 with ledPin := true } : State).ledsEnabled ∧
    (runWatchdogW (runWatchdogW { setup 0 0 0 0 with ledPin := true } 31000).1
       61000).2 = false := by
  have h := runWatchdog_purely_corrective ({ setup 0 0 0 0 with ledPin := true }) 31000
  have hw : (runWatchdogW { setup 0 0 0 0 with ledPin := true } 31000).2 = true := by
    decide
  obtain ⟨hp, hne⟩ := h.2.1 hw
  exact ⟨hw, hp, hne, h.2.2.2 hw 61000 (by decide) (by decide)⟩

/-- Fields of `checkMotion` that are never written: everything except
`motionDetected` and `motionStartTime`. -/
lemma checkMotion_frame (s : State) (now : Nat) (pir : Fin 3 → Bool) :
    (checkMotion s now pir).ledsEnabled = s.ledsEnabled ∧
    (checkMotion s now pir).ledPin = s.ledPin ∧
    (checkMotion s now pir).ledOnTime = s.ledOnTime ∧
    (checkMotion s now pir).isDark = s.isDark ∧
    (checkMotion s now pir).currentLdrInterval = s.currentLdrInterval ∧
    (checkMotion s now pir).consecutiveLightReadings = s.consecutiveLightReadings ∧
    (checkMotion s now pir).lastLdrCheck = s.lastLdrCheck ∧
    (checkMotion s now pir).lastWatchdogCheck = s.lastWatchdogCheck := by
  unfold checkMotion
  dsimp only
  split_ifs <;> exact ⟨rfl, rfl, rfl, rfl, rfl, rfl, rfl, rfl⟩

lemma motionBlock_notDark (s : State) (now nowM : Nat) (pir : Fin 3 → Bool)
    (h : ¬ s.isDark = true) :
    motionBlock s now nowM pir = (s, false) := by
  unfold motionBlock
  rw [if_neg h]

lemma motionBlock_write_eq (s : State) (now nowM : Nat) (pir : Fin 3 → Bool)
    (hd : s.isDark = true)
    (hne : (checkMotion s nowM pir).ledsEnabled ≠ (checkMotion s nowM pir).motionDetected) :
    motionBlock s now nowM pir =
      ({ checkMotion s nowM pir with
          ledsEnabled := (checkMotion s nowM pir).motionDetected,
          ledPin := (checkMotion s nowM pir).motionDetected,
          ledOnTime :=
            if (checkMotion s nowM pir).motionDetected = true then now
            else (checkMotion s nowM pir).ledOnTime }, true) := by
  unfold motionBlock
  rw [if_pos hd]
  dsimp only
  rw [if_pos hne]

lemma motionBlock_noWrite (s : State) (now nowM : Nat) (pir : Fin 3 → Bool)
    (hd : s.isDark = true)
    (h : (checkMotion s nowM pir).ledsEnabled = (checkMotion s nowM pir).motionDetected) :
    motionBlock s now nowM pir = (checkMotion s nowM pir, false) := by
  unfold motionBlock
  rw [if_pos hd]
  dsimp only
  rw [if_neg (fun hcon => hcon h)]

lemma motionBlock_snd_eq_false (s : State) (now nowM : Nat) (pir : Fin 3 → Bool)
    (h : (checkMotion s nowM pir).ledsEnabled = (checkMotion s nowM pir).motionDetected) :
    (motionBlock s now nowM pir).2 = false := by
  rcases Decidable.em (s.isDark = true) with hd | hd
  · rw [motionBlock_noWrite s now nowM pir hd h]
  · rw [motionBlock_notDark s now nowM pir hd]

lemma motionBlock_fst_led_eq_md (s : State) (now nowM : Nat) (pir : Fin 3 → Bool)
    (hd : s.isDark = true) :
    (motionBlock s now nowM pir).1.ledsEnabled =
      (motionBlock s now nowM pir).1.motionDetected := by
  rcases Decidable.em ((checkMotion s nowM pir).ledsEnabled =
      (checkMotion s nowM pir).motionDetected) with heq | hneq
  · rw [motionBlock_noWrite s now nowM pir hd heq]
    exact heq
  · rw [motionBlock_write_eq s now nowM pir hd hneq]

/-- C9. Actuator write elision: the darkness-gated actuator step issues a
physical write only when the desired state (`motionDetected` as recomputed by
`checkMotion`) differs from the current `ledsEnabled`; while dark it makes
`ledsEnabled` equal the desired state, an unchanged desired state produces no
write and leaves the pin untouched, and a repeated iteration whose desired
state is unchanged issues zero additional writes from that step. -/
theorem motionBlock_write_elision (s : State) (now nowM : Nat) (pir : Fin 3 → Bool) :
    ((motionBlock s now nowM pir).2 = true →
      (checkMotion s nowM pir).motionDetected ≠ s.ledsEnabled) ∧
    (s.isDark = true →
      (motionBlock s now nowM pir).1.ledsEnabled =
        (checkMotion s nowM pir).motionDetected ∧
      ((checkMotion s nowM pir).motionDetected = s.ledsEnabled →
        (motionBlock s now nowM pir).2 = false ∧
        (motionBlock s now nowM pir).1.ledPin = s.ledPin)) ∧
    (∀ t2 t2M (pir2 : Fin 3 → Bool),
      (checkMotion (motionBlock s now nowM pir).1 t2M pir2).motionDetected =
        (motionBlock s now nowM pir).1.motionDetected →
      (motionBlock (motionBlock s now nowM pir).1 t2 t2M pir2).2 = false) := by
  have hfr := checkMotion_frame s nowM pir
  refine ⟨?_, ?_, ?_⟩
  · intro ht hcon
    rcases Decidable.em (s.isDark = true) with hd | hd
    · rcases Decidable.em ((checkMotion s nowM pir).ledsEnabled =
          (checkMotion s nowM pir).motionDetected) with heq | hneq
      · rw [motionBlock_noWrite s now nowM pir hd heq] at ht
        simp at ht
      · exact hneq (by rw [hfr.1]; exact hcon.symm)
    · rw [motionBlock_notDark s now nowM pir hd] at ht
      simp at ht
  · intro hd
    rcases Decidable.em ((checkMotion s nowM pir).ledsEnabled =
        (checkMotion s nowM pir).motionDetected) with heq | hneq
    · rw [motionBlock_noWrite s now nowM pir hd heq]
      exact ⟨heq, fun _ => ⟨rfl, hfr.2.1⟩⟩
    · rw [motionBlock_write_eq s now nowM pir hd hneq]
      exact ⟨rfl, fun heq2 => absurd (by rw [hfr.1]; exact heq2.symm) hneq⟩
  · intro t2 t2M pir2 hsame
    rcases Decidable.em (s.isDark = true) with hd | hd
    · apply motionBlock_snd_eq_false
      rw [(checkMotion_frame ((motionBlock s now nowM pir).1) t2M pir2).1, hsame]
      exact motionBlock_fst_led_eq_md s now nowM pir hd
    · rw [motionBlock_notDark s now nowM pir hd]
      show (motionBlock s t2 t2M pir2).2 = false
      rw [motionBlock_notDark s t2 t2M pir2 hd]

/-- Witness for C9: in a dark state with no motion and LEDs already off, the
desired state matches `ledsEnabled`, so the step issues no write, and a
repeat iteration issues none either. -/
theorem motionBlock_write_elision_witness :
    (motionBlock { setup 0 0 0 0 with isDark := true } 100 100
      (fun _ => false)).2 = false ∧
    (motionBlock (motionBlock { setup 0 0 0 0 with isDark := true } 100 100
        (fun _ => false)).1 200 200 (fun _ => false)).2 = false := by
  have h := motionBlock_write_elision ({ setup 0 0 0 0 with isDark := true }) 100 100
    (fun _ => false)
  exact ⟨((h.2.1 rfl).2 (by decide)).1, h.2.2 200 200 (fun _ => false) (by decide)⟩

/-- C10. The lockout is conditioned on the LEDs being on: `inLockoutPeriod`
holds only if `ledsEnabled` is true, and whenever `ledsEnabled` is false the
light classification is never suppressed by the lockout — the guard collapses
to the bare cadence test, no matter how recently `ledOnTime` was stamped. -/
theorem inLockout_requires_enabled (s : State) (now : Nat) :
    (inLockoutPeriod s now = true → s.ledsEnabled = true) ∧
    (s.ledsEnabled = false →
      inLockoutPeriod s now = false ∧
      lightCheckRuns s now =
        decide (s.currentLdrInterval ≤ now - s.lastLdrCheck)) := by
  constructor
  · intro h
    rcases hE : s.ledsEnabled with _ | _
    · rw [inLockoutPeriod, hE] at h
      simp at h
    · rfl
  · intro hE
    constructor
    · rw [inLockoutPeriod, hE]
      simp
    · rw [lightCheckRuns, inLockoutPeriod, hE]
      simp

/-- Witness for C10: LEDs off with `ledOnTime` stamped this very millisecond
(`now = ledOnTime = 7`): the lockout does not hold and the light-check guard
is exactly the cadence test. -/
theorem inLockout_requires_enabled_witness :
    inLockoutPeriod { setup 0 0 0 0 with ledOnTime := 7 } 7 = false ∧
    lightCheckRuns { setup 0 0 0 0 with ledOnTime := 7 } 7 =
      decide (({ setup 0 0 0 0 with ledOnTime := 7 } : State).currentLdrInterval ≤
        7 - ({ setup 0 0 0 0 with ledOnTime := 7 } : State).lastLdrCheck) :=
  (inLockout_requires_enabled ({ setup 0 0 0 0 with ledOnTime := 7 }) 7).2 rfl

/-! ## Scheduler traces: frame lemmas, the reachability relation and its
invariant, used for the adaptive-cadence claim (C3), the bright-forces-off
claim (C6) and the lockout-window claim (C7). -/

lemma runWatchdogW_frame (s : State) (now : Nat) :
    (runWatchdogW s now).1.currentLdrInterval = s.currentLdrInterval ∧
    (runWatchdogW s now).1.isDark = s.isDark ∧
    (runWatchdogW s now).1.ledsEnabled = s.ledsEnabled ∧
    (runWatchdogW s now).1.ledOnTime = s.ledOnTime ∧
    (runWatchdogW s now).1.consecutiveLightReadings = s.consecutiveLightReadings ∧
    (runWatchdogW s now).1.motionDetected = s.motionDetected ∧
    (runWatchdogW s now).1.motionStartTime = s.motionStartTime := by
  rcases Decidable.em (WATCHDOG_INTERVAL < now - s.lastWatchdogCheck) with hf | hf
  · rcases Decidable.em (s.ledsEnabled ≠ s.ledPin) with hm | hm
    · rw [runWatchdogW_fire_mismatch s now hf hm]
      exact ⟨rfl, rfl, rfl, rfl, rfl, rfl, rfl⟩
    · rw [runWatchdogW_fire_match s now hf hm]
      exact ⟨rfl, rfl, rfl, rfl, rfl, rfl, rfl⟩
  · rw [runWatchdogW_noFire s now hf]
    exact ⟨rfl, rfl, rfl, rfl, rfl, rfl, rfl⟩

lemma motionBlock_frame (s : State) (now nowM : Nat) (pir : Fin 3 → Bool) :
    (motionBlock s now nowM pir).1.isDark = s.isDark ∧
    (motionBlock s now nowM pir).1.currentLdrInterval = s.currentLdrInterval ∧
    (motionBlock s now nowM pir).1.consecutiveLightReadings =
      s.consecutiveLightReadings ∧
    (motionBlock s now nowM pir).1.lastLdrCheck = s.lastLdrCheck := by
  have hfr := checkMotion_frame s nowM pir
  rcases Decidable.em (s.isDark = true) with hd | hd
  · rcases Decidable.em ((checkMotion s nowM pir).ledsEnabled =
        (checkMotion s nowM pir).motionDetected) with heq | hneq
    · rw [motionBlock_noWrite s now nowM pir hd heq]
      exact ⟨hfr.2.2.2.1, hfr.2.2.2.2.1, hfr.2.2.2.2.2.1, hfr.2.2.2.2.2.2.1⟩
    · rw [motionBlock_write_eq s now nowM pir hd hneq]
      exact ⟨hfr.2.2.2.1, hfr.2.2.2.2.1, hfr.2.2.2.2.2.1, hfr.2.2.2.2.2.2.1⟩
  · rw [motionBlock_notDark s now nowM pir hd]
    exact ⟨rfl, rfl, rfl, rfl⟩

lemma motionBlock_ledOnTime (s : State) (now nowM : Nat) (pir : Fin 3 → Bool) :
    (motionBlock s now nowM pir).1.ledOnTime = s.ledOnTime ∨
    (motionBlock s now nowM pir).1.ledOnTime = now := by
  have hfr := checkMotion_frame s nowM pir
  rcases Decidable.em (s.isDark = true) with hd | hd
  · rcases Decidable.em ((checkMotion s nowM pir).ledsEnabled =
        (checkMotion s nowM pir).motionDetected) with heq | hneq
    · rw [motionBlock_noWrite s now nowM pir hd heq]
      exact Or.inl hfr.2.2.1
    · rw [motionBlock_write_eq s now nowM pir hd hneq]
      rcases Decidable.em ((checkMotion s nowM pir).motionDetected = true) with hm | hm
      · right
        show (if (checkMotion s nowM pir).motionDetected = true then now
              else (checkMotion s nowM pir).ledOnTime) = now
        rw [if_pos hm]
      · left
        show (if (checkMotion s nowM pir).motionDetected = true then now
              else (checkMotion s nowM pir).ledOnTime) = s.ledOnTime
        rw [if_neg hm]
        exact hfr.2.2.1
  · rw [motionBlock_notDark s now nowM pir hd]
    exact Or.inl rfl

lemma motionBlock_dark_off_inv (s : State) (now nowM : Nat) (pir : Fin 3 → Bool)
    (hI : s.isDark = false → s.ledsEnabled = false) :
    (motionBlock s now nowM pir).1.isDark = false →
    (motionBlock s now nowM pir).1.ledsEnabled = false := by
  rcases Decidable.em (s.isDark = true) with hd | hd
  · intro hb
    rw [(motionBlock_frame s now nowM pir).1, hd] at hb
    simp at hb
  · rw [motionBlock_notDark s now nowM pir hd]
    exact hI

lemma lightBlock_notRun (s : State) (now : Nat) (r : Int)
    (h : lightCheckRuns s now = false) :
    lightBlock s now r = s := by
  unfold lightBlock
  rw [if_neg (by simp [h])]

lemma lightBlock_frame (s : State) (now : Nat) (r : Int) :
    (lightBlock s now r).motionDetected = s.motionDetected ∧
    (lightBlock s now r).motionStartTime = s.motionStartTime ∧
    (lightBlock s now r).ledOnTime = s.ledOnTime ∧
    (lightBlock s now r).lastWatchdogCheck = s.lastWatchdogCheck := by
  unfold lightBlock
  dsimp only
  split_ifs <;> exact ⟨rfl, rfl, rfl, rfl⟩

lemma lightBlock_interval_mem (s : State) (now : Nat) (r : Int)
    (h : s.currentLdrInterval = LDR_FAST_INTERVAL ∨
         s.currentLdrInterval = LDR_SLOW_INTERVAL) :
    (lightBlock s now r).currentLdrInterval = LDR_FAST_INTERVAL ∨
    (lightBlock s now r).currentLdrInterval = LDR_SLOW_INTERVAL := by
  unfold lightBlock
  dsimp only
  split_ifs <;> first | exact Or.inr rfl | exact Or.inl rfl | exact h

lemma lightBlock_run_dark (s : State) (now : Nat) (r : Int)
    (hrun : lightCheckRuns s now = true)
    (hd : (checkLight { s with lastLdrCheck := now } r).isDark = true) :
    lightBlock s now r =
      if (checkLight { s with lastLdrCheck := now } r).currentLdrInterval =
          LDR_SLOW_INTERVAL then
        { checkLight { s with lastLdrCheck := now } r with
            consecutiveLightReadings := 0, currentLdrInterval := LDR_FAST_INTERVAL }
      else
        { checkLight { s with lastLdrCheck := now } r with
            consecutiveLightReadings := 0 } := by
  unfold lightBlock
  rw [if_pos hrun]
  dsimp only
  rw [if_neg (by simp [hd])]

lemma lightBlock_run_bright5 (s : State) (now : Nat) (r : Int)
    (hrun : lightCheckRuns s now = true)
    (hb : (checkLight { s with lastLdrCheck := now } r).isDark = false)
    (h5 : LIGHT_HISTORY_THRESHOLD ≤
            (checkLight { s with lastLdrCheck := now } r).consecutiveLightReadings + 1 ∧
          (checkLight { s with lastLdrCheck := now } r).currentLdrInterval =
            LDR_FAST_INTERVAL) :
    lightBlock s now r =
      if (checkLight { s with lastLdrCheck := now } r).ledsEnabled = true then
        { checkLight { s with lastLdrCheck := now } r with
            consecutiveLightReadings :=
              (checkLight { s with lastLdrCheck := now } r).consecutiveLightReadings + 1,
            currentLdrInterval := LDR_SLOW_INTERVAL,
            ledsEnabled := false, ledPin := false }
      else
        { checkLight { s with lastLdrCheck := now } r with
            consecutiveLightReadings :=
              (checkLight { s with lastLdrCheck := now } r).consecutiveLightReadings + 1,
            currentLdrInterval := LDR_SLOW_INTERVAL } := by
  unfold lightBlock
  rw [if_pos hrun]
  dsimp only
  rw [if_pos hb, if_pos h5]

lemma lightBlock_run_bright_not5 (s : State) (now : Nat) (r : Int)
    (hrun : lightCheckRuns s now = true)
    (hb : (checkLight { s with lastLdrCheck := now } r).isDark = false)
    (h5 : ¬ (LIGHT_HISTORY_THRESHOLD ≤
            (checkLight { s with lastLdrCheck := now } r).consecutiveLightReadings + 1 ∧
          (checkLight { s with lastLdrCheck := now } r).currentLdrInterval =
            LDR_FAST_INTERVAL)) :
    lightBlock s now r =
      if (checkLight { s with lastLdrCheck := now } r).ledsEnabled = true then
        { checkLight { s with lastLdrCheck := now } r with
            consecutiveLightReadings :=
              (checkLight { s with lastLdrCheck := now } r).consecutiveLightReadings + 1,
            ledsEnabled := false, ledPin := false }
      else
        { checkLight { s with lastLdrCheck := now } r with
            consecutiveLightReadings :=
              (checkLight { s with lastLdrCheck := now } r).consecutiveLightReadings + 1 } := by
  unfold lightBlock
  rw [if_pos hrun]
  dsimp only
  rw [if_pos hb, if_neg h5]

lemma lightBlock_slow_entry (s : State) (now : Nat) (r : Int)
    (hchg : (lightBlock s now r).currentLdrInterval = LDR_SLOW_INTERVAL)
    (hprev : s.currentLdrInterval ≠ LDR_SLOW_INTERVAL) :
    lightCheckRuns s now = true ∧
    (lightBlock s now r).isDark = false ∧
    LIGHT_HISTORY_THRESHOLD ≤ (lightBlock s now r).consecutiveLightReadings ∧
    s.currentLdrInterval = LDR_FAST_INTERVAL := by
  rcases hrun : lightCheckRuns s now with _ | _
  · rw [lightBlock_notRun s now r hrun] at hchg
    exact absurd hchg hprev
  · rcases hdk : (checkLight { s with lastLdrCheck := now } r).isDark with _ | _
    · rcases Decidable.em (LIGHT_HISTORY_THRESHOLD ≤
          (checkLight { s with lastLdrCheck := now } r).consecutiveLightReadings + 1 ∧
          (checkLight { s with lastLdrCheck := now } r).currentLdrInterval =
            LDR_FAST_INTERVAL) with h5 | h5
      · rw [lightBlock_run_bright5 s now r hrun hdk h5] at hchg ⊢
        rcases Decidable.em ((checkLight { s with lastLdrCheck := now } r).ledsEnabled
            = true) with hen | hen
        · rw [if_pos hen]
          exact ⟨rfl, hdk, h5.1, h5.2⟩
        · rw [if_neg hen]
          exact ⟨rfl, hdk, h5.1, h5.2⟩
      · rw [lightBlock_run_bright_not5 s now r hrun hdk h5] at hchg
        rcases Decidable.em ((checkLight { s with lastLdrCheck := now } r).ledsEnabled
            = true) with hen | hen
        · rw [if_pos hen] at hchg
          exact absurd hchg hprev
        · rw [if_neg hen] at hchg
          exact absurd hchg hprev
    · rw [lightBlock_run_dark s now r hrun hdk] at hchg
      rcases Decidable.em ((checkLight { s with lastLdrCheck := now } r).currentLdrInterval
          = LDR_SLOW_INTERVAL) with hs | hs
      · rw [if_pos hs] at hchg
        exact absurd (show LDR_FAST_INTERVAL = LDR_SLOW_INTERVAL from hchg) (by decide)
      · rw [if_neg hs] at hchg
        exact absurd hchg hprev

lemma lightBlock_dark_resets (s : State) (now : Nat) (r : Int)
    (hI : s.currentLdrInterval = LDR_FAST_INTERVAL ∨
          s.currentLdrInterval = LDR_SLOW_INTERVAL)
    (hrun : lightCheckRuns s now = true)
    (hdark : (lightBlock s now r).isDark = true) :
    (lightBlock s now r).consecutiveLightReadings = 0 ∧
    (lightBlock s now r).currentLdrInterval = LDR_FAST_INTERVAL := by
  rcases hdk : (checkLight { s with lastLdrCheck := now } r).isDark with _ | _
  · rcases Decidable.em (LIGHT_HISTORY_THRESHOLD ≤
        (checkLight { s with lastLdrCheck := now } r).consecutiveLightReadings + 1 ∧
        (checkLight { s with lastLdrCheck := now } r).currentLdrInterval =
          LDR_FAST_INTERVAL) with h5 | h5
    · rw [lightBlock_run_bright5 s now r hrun hdk h5] at hdark
      rcases Decidable.em ((checkLight { s with lastLdrCheck := now } r).ledsEnabled
          = true) with hen | hen
      · rw [if_pos hen] at hdark
        exact absurd (hdk.symm.trans hdark) (by decide)
      · rw [if_neg hen] at hdark
        exact absurd (hdk.symm.trans hdark) (by decide)
    · rw [lightBlock_run_bright_not5 s now r hrun hdk h5] at hdark
      rcases Decidable.em ((checkLight { s with lastLdrCheck := now } r).ledsEnabled
          = true) with hen | hen
      · rw [if_pos hen] at hdark
        exact absurd (hdk.symm.trans hdark) (by decide)
      · rw [if_neg hen] at hdark
        exact absurd (hdk.symm.trans hdark) (by decide)
  · rw [lightBlock_run_dark s now r hrun hdk]
    rcases Decidable.em ((checkLight { s with lastLdrCheck := now } r).currentLdrInterval
        = LDR_SLOW_INTERVAL) with hs | hs
    · rw [if_pos hs]
      exact ⟨rfl, rfl⟩
    · rw [if_neg hs]
      refine ⟨rfl, ?_⟩
      rcases hI with hF | hS
      · exact hF
      · exact absurd hS hs

lemma lightBlock_bright_forces_off (s : State) (now : Nat) (r : Int)
    (hrun : lightCheckRuns s now = true)
    (hbright : (lightBlock s now r).isDark = false) :
    (lightBlock s now r).ledsEnabled = false ∧
    (s.ledsEnabled = true → (lightBlock s now r).ledPin = false) := by
  rcases hdk : (checkLight { s with lastLdrCheck := now } r).isDark with _ | _
  · rcases Decidable.em (LIGHT_HISTORY_THRESHOLD ≤
        (checkLight { s with lastLdrCheck := now } r).consecutiveLightReadings + 1 ∧
        (checkLight { s with lastLdrCheck := now } r).currentLdrInterval =
          LDR_FAST_INTERVAL) with h5 | h5
    · rw [lightBlock_run_bright5 s now r hrun hdk h5]
      rcases Decidable.em ((checkLight { s with lastLdrCheck := now } r).ledsEnabled
          = true) with hen | hen
      · rw [if_pos hen]
        exact ⟨rfl, fun _ => rfl⟩
      · rw [if_neg hen]
        exact ⟨Bool.eq_false_iff.mpr hen, fun he => absurd he hen⟩
    · rw [lightBlock_run_bright_not5 s now r hrun hdk h5]
      rcases Decidable.em ((checkLight { s with lastLdrCheck := now } r).ledsEnabled
          = true) with hen | hen
      · rw [if_pos hen]
        exact ⟨rfl, fun _ => rfl⟩
      · rw [if_neg hen]
        exact ⟨Bool.eq_false_iff.mpr hen, fun he => absurd he hen⟩
  · rw [lightBlock_run_dark s now r hrun hdk] at hbright
    rcases Decidable.em ((checkLight { s with lastLdrCheck := now } r).currentLdrInterval
        = LDR_SLOW_INTERVAL) with hs | hs
    · rw [if_pos hs] at hbright
      exact absurd (hdk.symm.trans hbright) (by decide)
    · rw [if_neg hs] at hbright
      exact absurd (hdk.symm.trans hbright) (by decide)

lemma lightBlock_dark_off_inv (s : State) (now : Nat) (r : Int)
    (hI : s.isDark = false → s.ledsEnabled = false) :
    (lightBlock s now r).isDark = false → (lightBlock s now r).ledsEnabled = false := by
  rcases hrun : lightCheckRuns s now with _ | _
  · rw [lightBlock_notRun s now r hrun]
    exact hI
  · intro hb
    exact (lightBlock_bright_forces_off s now r hrun hb).1

/-- States reachable by the scheduler, paired with the earliest possible
timestamp of the next tick. `setup()` ends with a `delay(3000)` (PIR
stabilization) after boot, so the first `loop()` iteration observes
`millis() ≥ 3000`; each iteration ends with `delay(300)`, so the next
iteration observes `millis()` at least 300 ms past the watchdog's clock
sample of the current one. Within a tick the three `millis()` calls are
monotone: `now ≤ nowM ≤ nowW`. -/
inductive Reachable : State → Nat → Prop
  | boot (r0 r1 r2 r3 : Int) : Reachable (setup r0 r1 r2 r3) 3000
  | step {s : State} {tmin : Nat} (t : Tick) (hr : Reachable s tmin)
      (h1 : tmin ≤ t.now) (h2 : t.now ≤ t.nowM) (h3 : t.nowM ≤ t.nowW) :
      Reachable (loopStep s t).1 (t.nowW + 300)

/-- The inductive invariant of the scheduler: the adaptive interval is one of
the two legal cadences, the LEDs are never on while the classifier says
bright, and the `ledOnTime` stamp lies at least one idle delay in the past
(or is still its zero initializer, with every tick at `≥ 3000` ms). -/
def Inv (s : State) (tmin : Nat) : Prop :=
  (s.currentLdrInterval = LDR_FAST_INTERVAL ∨
   s.currentLdrInterval = LDR_SLOW_INTERVAL) ∧
  (s.isDark = false → s.ledsEnabled = false) ∧
  (s.ledOnTime + 300 ≤ tmin ∨ (s.ledOnTime = 0 ∧ 3000 ≤ tmin))

lemma setup_inv (r0 r1 r2 r3 : Int) : Inv (setup r0 r1 r2 r3) 3000 :=
  ⟨Or.inl rfl, fun _ => rfl, Or.inr ⟨rfl, le_refl 3000⟩⟩

lemma loopStep_inv {s : State} {tmin : Nat} (t : Tick) (hInv : Inv s tmin)
    (h1 : tmin ≤ t.now) (h2 : t.now ≤ t.nowM) (h3 : t.nowM ≤ t.nowW) :
    Inv (loopStep s t).1 (t.nowW + 300) := by
  obtain ⟨hI1, hI2, hI3⟩ := hInv
  have hwf := runWatchdogW_frame
    (motionBlock (lightBlock s t.now t.reading) t.now t.nowM t.pir).1 t.nowW
  have hmf := motionBlock_frame (lightBlock s t.now t.reading) t.now t.nowM t.pir
  have hlf := lightBlock_frame s t.now t.reading
  have hloop : (loopStep s t).1 =
      (runWatchdogW
        (motionBlock (lightBlock s t.now t.reading) t.now t.nowM t.pir).1 t.nowW).1 :=
    rfl
  refine ⟨?_, ?_, ?_⟩
  · rw [hloop, hwf.1, hmf.2.1]
    exact lightBlock_interval_mem s t.now t.reading hI1
  · rw [hloop, hwf.2.1, hwf.2.2.1]
    exact motionBlock_dark_off_inv (lightBlock s t.now t.reading) t.now t.nowM t.pir
      (lightBlock_dark_off_inv s t.now t.reading hI2)
  · rw [hloop, hwf.2.2.2.1]
    rcases motionBlock_ledOnTime (lightBlock s t.now t.reading) t.now t.nowM t.pir
      with hold | hnew
    · rw [hold, hlf.2.2.1]
      rcases hI3 with ha | ⟨hz, hb⟩
      · exact Or.inl (by omega)
      · exact Or.inr ⟨hz, by omega⟩
    · rw [hnew]
      exact Or.inl (by omega)

lemma reachable_inv {s : State} {tmin : Nat} (h : Reachable s tmin) : Inv s tmin := by
  induction h with
  | boot r0 r1 r2 r3 => exact setup_inv r0 r1 r2 r3
  | step t hr h1 h2 h3 ih => exact loopStep_inv t ih h1 h2 h3

/-- C3. Adaptive-cadence invariant, over every reachable scheduler state:
(i) `currentLdrInterval` is always one of FAST (1000 ms) and SLOW (10000 ms);
(ii) a step can newly enter SLOW only when a light classification ran this
tick, classified the environment as non-dark, the consecutive-light counter
has reached `LIGHT_HISTORY_THRESHOLD = 5`, and the interval was FAST;
(iii) a classification that leaves `isDark` true resets the counter to 0 and
forces the interval back to FAST. -/
theorem adaptive_cadence_invariant {s : State} {tmin : Nat} (t : Tick)
    (hr : Reachable s tmin) :
    (s.currentLdrInterval = LDR_FAST_INTERVAL ∨
     s.currentLdrInterval = LDR_SLOW_INTERVAL) ∧
    ((loopStep s t).1.currentLdrInterval = LDR_SLOW_INTERVAL →
      s.currentLdrInterval ≠ LDR_SLOW_INTERVAL →
      lightCheckRuns s t.now = true ∧
      (loopStep s t).1.isDark = false ∧
      LIGHT_HISTORY_THRESHOLD ≤ (loopStep s t).1.consecutiveLightReadings ∧
      s.currentLdrInterval = LDR_FAST_INTERVAL) ∧
    (lightCheckRuns s t.now = true → (loopStep s t).1.isDark = true →
      (loopStep s t).1.consecutiveLightReadings = 0 ∧
      (loopStep s t).1.currentLdrInterval = LDR_FAST_INTERVAL) := by
  have hInv := reachable_inv hr
  have hwf := runWatchdogW_frame
    (motionBlock (lightBlock s t.now t.reading) t.now t.nowM t.pir).1 t.nowW
  have hmf := motionBlock_frame (lightBlock s t.now t.reading) t.now t.nowM t.pir
  have hloop : (loopStep s t).1 =
      (runWatchdogW
        (motionBlock (lightBlock s t.now t.reading) t.now t.nowM t.pir).1 t.nowW).1 :=
    rfl
  have hcI : (loopStep s t).1.currentLdrInterval =
      (lightBlock s t.now t.reading).currentLdrInterval := by
    rw [hloop, hwf.1, hmf.2.1]
  have hcD : (loopStep s t).1.isDark = (lightBlock s t.now t.reading).isDark := by
    rw [hloop, hwf.2.1, hmf.1]
  have hcC : (loopStep s t).1.consecutiveLightReadings =
      (lightBlock s t.now t.reading).consecutiveLightReadings := by
    rw [hloop, hwf.2.2.2.2.1, hmf.2.2.1]
  refine ⟨hInv.1, ?_, ?_⟩
  · intro hS hne
    rw [hcI] at hS
    obtain ⟨hrun, hb, hcons, hfast⟩ := lightBlock_slow_entry s t.now t.reading hS hne
    exact ⟨hrun, by rw [hcD]; exact hb, by rw [hcC]; exact hcons, hfast⟩
  · intro hrun hdark
    rw [hcD] at hdark
    obtain ⟨hc0, hcF⟩ := lightBlock_dark_resets s t.now t.reading hInv.1 hrun hdark
    exact ⟨by rw [hcC]; exact hc0, by rw [hcI]; exact hcF⟩

/-- Witness for C3: from the post-setup all-dark state, a tick at 3000 ms
runs the classifier (dark average 0), which leaves the counter at 0 and the
interval FAST. -/
theorem adaptive_cadence_invariant_witness :
    ((setup 0 0 0 0).currentLdrInterval = LDR_FAST_INTERVAL ∨
     (setup 0 0 0 0).currentLdrInterval = LDR_SLOW_INTERVAL) ∧
    (loopStep (setup 0 0 0 0)
      ⟨3000, 3000, 3000, 0, fun _ => false⟩).1.consecutiveLightReadings = 0 ∧
    (loopStep (setup 0 0 0 0)
      ⟨3000, 3000, 3000, 0, fun _ => false⟩).1.currentLdrInterval =
      LDR_FAST_INTERVAL := by
  have h := adaptive_cadence_invariant ⟨3000, 3000, 3000, 0, fun _ => false⟩
    (Reachable.boot 0 0 0 0)
  exact ⟨h.1, h.2.2 (by decide) (by decide)⟩

/-- C6. Bright forces the LEDs off before the motion block: in every
scheduler iteration from a reachable state, if the light check runs and
classifies the environment as not dark, then already in the intermediate
state produced by the light block — i.e. before the darkness-gated motion
block — `ledsEnabled` is false (with the pin driven low if it was on); the
motion block is then skipped entirely (motion state untouched, no actuator
write), and in the post-iteration state the lights are never on while the
classifier reports bright. -/
theorem bright_forces_off {s : State} {tmin : Nat} (t : Tick)
    (hr : Reachable s tmin) (h1 : tmin ≤ t.now) (h2 : t.now ≤ t.nowM)
    (h3 : t.nowM ≤ t.nowW) :
    (lightCheckRuns s t.now = true →
      (lightBlock s t.now t.reading).isDark = false →
      (lightBlock s t.now t.reading).ledsEnabled = false ∧
      (s.ledsEnabled = true → (lightBlock s t.now t.reading).ledPin = false) ∧
      (loopStep s t).1.motionDetected = s.motionDetected ∧
      (loopStep s t).1.motionStartTime = s.motionStartTime ∧
      (loopStep s t).2 = false ∧
      (loopStep s t).1.ledsEnabled = false) ∧
    ((loopStep s t).1.isDark = false → (loopStep s t).1.ledsEnabled = false) := by
  constructor
  · intro hrun hb
    obtain ⟨hoff, hpin⟩ := lightBlock_bright_forces_off s t.now t.reading hrun hb
    have hnd : ¬ (lightBlock s t.now t.reading).isDark = true := by
      rw [hb]; simp
    have hmb := motionBlock_notDark (lightBlock s t.now t.reading) t.now t.nowM t.pir hnd
    have hwf := runWatchdogW_frame
      (motionBlock (lightBlock s t.now t.reading) t.now t.nowM t.pir).1 t.nowW
    have hlf := lightBlock_frame s t.now t.reading
    have hloop1 : (loopStep s t).1 =
        (runWatchdogW
          (motionBlock (lightBlock s t.now t.reading) t.now t.nowM t.pir).1 t.nowW).1 :=
      rfl
    have hloop2 : (loopStep s t).2 =
        (motionBlock (lightBlock s t.now t.reading) t.now t.nowM t.pir).2 := rfl
    refine ⟨hoff, hpin, ?_, ?_, ?_, ?_⟩
    · rw [hloop1, hwf.2.2.2.2.2.1, hmb]
      exact hlf.1
    · rw [hloop1, hwf.2.2.2.2.2.2, hmb]
      exact hlf.2.1
    · rw [hloop2, hmb]
    · rw [hloop1, hwf.2.2.1, hmb]
      exact hoff
  · exact (loopStep_inv t (reachable_inv hr) h1 h2 h3).2.1

/-- Witness for C6: from a bright post-setup state (all readings 100), the
3000 ms tick classifies bright and the iteration ends with the LEDs off and
no actuator write. -/
theorem bright_forces_off_witness :
    (lightBlock (setup 100 100 100 100) 3000 100).ledsEnabled = false ∧
    (loopStep (setup 100 100 100 100)
      ⟨3000, 3000, 3000, 100, fun _ => false⟩).2 = false ∧
    (loopStep (setup 100 100 100 100)
      ⟨3000, 3000, 3000, 100, fun _ => false⟩).1.ledsEnabled = false := by
  have h := bright_forces_off ⟨3000, 3000, 3000, 100, fun _ => false⟩
    (Reachable.boot 100 100 100 100) (le_refl 3000) (le_refl 3000) (le_refl 3000)
  have hh := h.1 (by decide) (by decide)
  exact ⟨hh.1, hh.2.2.2.2.1, hh.2.2.2.2.2⟩

/-- C7. Lockout window: along every reachable execution, a light
classification never happens at a scheduler tick whose timestamp lies within
`LDR_LOCKOUT_PERIOD` of the most recent off-to-on transition of
`ledsEnabled` (the `ledOnTime` stamp held at the start of the tick; a stamp
of 0 means no transition has happened yet). Concretely: any tick that runs
the classifier satisfies `ledOnTime + LDR_LOCKOUT_PERIOD ≤ now`. This holds
because consecutive ticks are at least 300 ms apart (the idle delay) and the
first tick happens at ≥ 3000 ms, both far beyond the 6-unit window. -/
theorem lockout_window_no_classification {s : State} {tmin : Nat} (t : Tick)
    (hr : Reachable s tmin) (h1 : tmin ≤ t.now)
    (hrun : lightCheckRuns s t.now = true) :
    s.ledOnTime + LDR_LOCKOUT_PERIOD ≤ t.now := by
  have hInv := reachable_inv hr
  have hL : LDR_LOCKOUT_PERIOD = 6 := rfl
  rcases hInv.2.2 with ha | ⟨hz, hb⟩
  · omega
  · omega

/-- Witness for C7: the first tick of the all-zero boot runs the classifier
at 3000 ms, far outside the lockout window of the zero stamp. -/
theorem lockout_window_no_classification_witness :
    lightCheckRuns (setup 0 0 0 0) 3000 = true ∧
    (setup 0 0 0 0).ledOnTime + LDR_LOCKOUT_PERIOD ≤ 3000 := by
  refine ⟨by decide, ?_⟩
  exact lockout_window_no_classification ⟨3000, 3000, 3000, 0, fun _ => false⟩
    (Reachable.boot 0 0 0 0) (le_refl 3000) (by decide)

end LedStrip
